import Mathlib

/-!
The operator starter of cluster-kube-controller-manager-operator: a shallow
embedding of `pkg/operator/starter.go`.  `RunOperator` is straight-line wiring code: it builds
clients, informer factories and controllers, starts the informers, launches the controllers and
waits for shutdown.  Its observable behaviour is the sequence of calls it makes to its
collaborators and the value it returns, so the embedding records every call of the source, in Go
evaluation order, with its receiver, arguments and results.

The revision and pruner controllers that `staticpod.NewControllers` builds are not part of the
source file; the properties stated about them are proved on definitions modelled from the
specification, each marked as such.
-/

namespace Operator

/-! ## Values -/

/-- Go `error` value: `none` is `nil`, `some msg` is an error carrying that message. -/
abbrev GoError := Option String

/-- Go value of type `<-chan struct{}`: `none` is the nil channel, `some i` is channel `i`. -/
abbrev StopCh := Option Nat

/-- Identity of an object (pointer or interface value) that flows through `RunOperator`:
`given` for one handed in with the controller context, `made n` for the result of the call that
produced the `n`-th object of the run. -/
inductive Ref
  | given (id : Nat)
  | made (n : Nat)
  deriving DecidableEq, Repr

/-- Go `revision.RevisionResource`, with the one field the source sets. -/
structure RevisionResource where
  Name : String
  deriving DecidableEq, Repr

/-- Go `configv1.ObjectReference`, with the fields the source sets (omitted ones are empty). -/
structure ObjectReference where
  Group : String
  Resource : String
  Name : String
  deriving DecidableEq, Repr

/-- Go `schema.GroupVersionResource`. -/
structure GroupVersionResource where
  Group : String
  Version : String
  Resource : String
  deriving DecidableEq, Repr

/-- An argument or result of a recorded call. -/
inductive Arg
  | obj (r : Ref)
  | str (s : String)
  | strs (l : List String)
  | int (n : Int)
  | minutes (n : Nat)
  | resources (l : List RevisionResource)
  | objectRefs (l : List ObjectReference)
  | gvr (g : GroupVersionResource)
  | stop (c : StopCh)
  | err (e : GoError)
  deriving DecidableEq, Repr

/-- The callees of `RunOperator`, one name per function, method or operation of the source. -/
inductive Fn
  | kubernetes_NewForConfig
  | operatorconfigclient_NewForConfig
  | dynamic_NewForConfig
  | configv1client_NewForConfig
  | NewSharedInformerFactory
  | NewKubeInformersForNamespaces
  | KubecontrollermanagerV1alpha1
  | OperatorClient
  | MustAsset
  | EnsureOperatorConfigExists
  | NewResourceSyncController
  | InformersFor
  | NewConfigObserver
  | Getenv
  | KubeControllerManagerOperatorConfigs
  | NewTargetConfigController
  | CachedConfigMapGetter
  | CachedSecretGetter
  | CoreV1
  | NewControllers
  | ConfigV1
  | NewVersionGetter
  | NewClusterOperatorStatusController
  | Done
  | Start
  | Run
  | Receive
  deriving DecidableEq, Repr

/-- One recorded call: callee, receiver (for a method), arguments in source order, results in
source order, and whether it was launched with a `go` statement. -/
structure Call where
  fn : Fn
  recv : Option Ref
  args : List Arg
  ret : List Arg
  go : Bool
  deriving DecidableEq, Repr

/-! ## Inputs -/

/-- Go `context.Context`, as far as `RunOperator` uses it: the channel `Done()` returns. -/
structure Context where
  done : StopCh
  deriving DecidableEq, Repr

/-- The method `Done()` of a context: successive calls return the same value. -/
def Context.Done (c : Context) : StopCh := c.done

/-- Go `controllercmd.ControllerContext`, with the fields `RunOperator` reads. -/
structure ControllerContext where
  KubeConfig : Nat
  EventRecorder : Nat
  Context : Context
  deriving DecidableEq, Repr

/-- Constants of packages `operatorclient` and `v1alpha1`, which the source names but does not
define. -/
structure Constants where
  GlobalUserSpecifiedConfigNamespace : String
  GlobalMachineSpecifiedConfigNamespace : String
  OperatorNamespace : String
  TargetNamespace : String
  GroupName : String

/-- What the surroundings answer to `RunOperator`: the `err` result of each fallible constructor,
the process environment, and which channels are eventually closed. -/
structure World where
  kubeErr : GoError
  operatorConfigErr : GoError
  dynamicErr : GoError
  configErr : GoError
  resourceSyncErr : GoError
  environ : String → Option String
  closes : Nat → Bool

/-- Go `os.Getenv`: the value of the variable, empty when the variable is not present. -/
def Getenv (environ : String → Option String) (key : String) : String :=
  match environ key with
  | some v => v
  | none => ""

/-! ## Recording monad -/

/-- Run state: the number of objects made so far and the calls made so far, newest first. -/
structure St where
  next : Nat
  trace : List Call

/-- Computations of `RunOperator`. -/
abbrev M := StateM St

/-- A call that returns a new object. -/
def invoke (fn : Fn) (recv : Option Ref) (args : List Arg) : M Ref := fun s =>
  match s with
  | { next := n, trace := t } =>
    (Ref.made n,
      { next := n + 1
        trace := { fn := fn, recv := recv, args := args, ret := [Arg.obj (Ref.made n)],
                   go := false } :: t })

/-- A call whose results, if any, are not new objects. -/
def effect (fn : Fn) (recv : Option Ref) (args : List Arg) (ret : List Arg) : M Unit := fun s =>
  match s with
  | { next := n, trace := t } =>
    ((),
      { next := n
        trace := { fn := fn, recv := recv, args := args, ret := ret, go := false } :: t })

/-- A `go` statement: the call is launched on a new goroutine and the caller continues. -/
def launch (fn : Fn) (recv : Option Ref) (args : List Arg) : M Unit := fun s =>
  match s with
  | { next := n, trace := t } =>
    ((),
      { next := n
        trace := { fn := fn, recv := recv, args := args, ret := [], go := true } :: t })

/-- A fallible constructor: returns the new object together with the `err` the world answers. -/
def construct (fn : Fn) (args : List Arg) (err : GoError) : M (Ref × GoError) := fun s =>
  match s with
  | { next := n, trace := t } =>
    ((Ref.made n, err),
      { next := n + 1
        trace := { fn := fn, recv := none, args := args,
                   ret := [Arg.obj (Ref.made n), Arg.err err], go := false } :: t })

/-- The expression `ctx.Context.Done()`. -/
def ctxDone (ctx : ControllerContext) : M StopCh := do
  let ch := ctx.Context.Done
  effect Fn.Done none [] [Arg.stop ch]
  return ch

/-- How a run of `RunOperator` ends. -/
inductive Outcome
  | returned (err : GoError)
  | blocked
  deriving DecidableEq, Repr

/-- Whether a receive from `ch` ever completes: it does once the channel is closed; on a nil
channel, or on one that is never closed, it blocks forever. -/
def completes (w : World) (ch : StopCh) : Bool :=
  match ch with
  | none => false
  | some i => w.closes i

/-- The receive `<-ch`; the result tells whether it completes. -/
def receive (w : World) (ch : StopCh) : M Bool := do
  effect Fn.Receive none [Arg.stop ch] []
  return completes w ch

/-! ## The program -/

/-- Go `deploymentConfigMaps`. -/
def deploymentConfigMaps : List RevisionResource :=
  [ { Name := "kube-controller-manager-pod" },
    { Name := "config" },
    { Name := "serviceaccount-ca" } ]

/-- Go `deploymentSecrets`. -/
def deploymentSecrets : List RevisionResource :=
  [ { Name := "cluster-signing-ca" },
    { Name := "controller-manager-kubeconfig" },
    { Name := "service-account-private-key" },
    { Name := "serving-cert" } ]

/-- Go `RunOperator`.  Every statement of the source is one step; the calls inside an argument
list are made left to right before the call they belong to.  The test `err != nil` is
`err.isSome`.  The last statement, `return fmt.Errorf("stopped")`, is reached only if the receive
before it completes; otherwise the run stays blocked in that receive. -/
def RunOperator (k : Constants) (w : World) (ctx : ControllerContext) : M Outcome := do
  let (kubeClient, err) ← construct Fn.kubernetes_NewForConfig
    [Arg.obj (Ref.given ctx.KubeConfig)] w.kubeErr
  if err.isSome then
    return Outcome.returned err
  let (operatorConfigClient, err) ← construct Fn.operatorconfigclient_NewForConfig
    [Arg.obj (Ref.given ctx.KubeConfig)] w.operatorConfigErr
  if err.isSome then
    return Outcome.returned err
  let (dynamicClient, err) ← construct Fn.dynamic_NewForConfig
    [Arg.obj (Ref.given ctx.KubeConfig)] w.dynamicErr
  if err.isSome then
    return Outcome.returned err
  let (configClient, err) ← construct Fn.configv1client_NewForConfig
    [Arg.obj (Ref.given ctx.KubeConfig)] w.configErr
  if err.isSome then
    return Outcome.returned err

  let operatorConfigInformers ← invoke Fn.NewSharedInformerFactory none
    [Arg.obj operatorConfigClient, Arg.minutes 10]
  let kubeInformersForNamespaces ← invoke Fn.NewKubeInformersForNamespaces none
    [Arg.obj kubeClient,
     Arg.strs ["",
       k.GlobalUserSpecifiedConfigNamespace,
       k.GlobalMachineSpecifiedConfigNamespace,
       k.OperatorNamespace,
       k.TargetNamespace,
       "kube-system"]]
  let operatorClientClient ← invoke Fn.KubecontrollermanagerV1alpha1
    (some operatorConfigClient) []
  let operatorClient ← invoke Fn.OperatorClient none
    [Arg.obj operatorConfigInformers, Arg.obj operatorClientClient]

  let asset ← invoke Fn.MustAsset none
    [Arg.str "v3.11.0/kube-controller-manager/operator-config.yaml"]
  effect Fn.EnsureOperatorConfigExists none
    [Arg.obj dynamicClient,
     Arg.obj asset,
     Arg.gvr { Group := k.GroupName, Version := "v1alpha1",
               Resource := "kubecontrollermanageroperatorconfigs" }]
    []

  let (resourceSyncController, err) ← construct Fn.NewResourceSyncController
    [Arg.obj operatorClient,
     Arg.obj kubeInformersForNamespaces,
     Arg.obj kubeClient,
     Arg.obj (Ref.given ctx.EventRecorder)] w.resourceSyncErr
  if err.isSome then
    return Outcome.returned err
  let kubeSystemInformers ← invoke Fn.InformersFor (some kubeInformersForNamespaces)
    [Arg.str "kube-system"]
  let configObserver ← invoke Fn.NewConfigObserver none
    [Arg.obj operatorClient,
     Arg.obj operatorConfigInformers,
     Arg.obj kubeSystemInformers,
     Arg.obj resourceSyncController,
     Arg.obj (Ref.given ctx.EventRecorder)]
  let image := Getenv w.environ "IMAGE"
  effect Fn.Getenv none [Arg.str "IMAGE"] [Arg.str image]
  let operatorConfigs ← invoke Fn.KubeControllerManagerOperatorConfigs
    (some operatorConfigInformers) []
  let targetInformers ← invoke Fn.InformersFor (some kubeInformersForNamespaces)
    [Arg.str k.TargetNamespace]
  let targetClient ← invoke Fn.KubecontrollermanagerV1alpha1 (some operatorConfigClient) []
  let targetConfigController ← invoke Fn.NewTargetConfigController none
    [Arg.str image,
     Arg.obj kubeInformersForNamespaces,
     Arg.obj operatorConfigs,
     Arg.obj targetInformers,
     Arg.obj targetClient,
     Arg.obj operatorClient,
     Arg.obj kubeClient,
     Arg.obj (Ref.given ctx.EventRecorder)]

  let configMapGetter ← invoke Fn.CachedConfigMapGetter none
    [Arg.obj kubeClient, Arg.obj kubeInformersForNamespaces]
  let secretGetter ← invoke Fn.CachedSecretGetter none
    [Arg.obj kubeClient, Arg.obj kubeInformersForNamespaces]
  let coreV1 ← invoke Fn.CoreV1 (some kubeClient) []
  let podInformers ← invoke Fn.InformersFor (some kubeInformersForNamespaces)
    [Arg.str k.TargetNamespace]
  let allInformers ← invoke Fn.InformersFor (some kubeInformersForNamespaces) [Arg.str ""]
  let staticPodControllers ← invoke Fn.NewControllers none
    [Arg.str k.TargetNamespace,
     Arg.str "openshift-kube-controller-manager",
     Arg.str "kube-controller-manager-pod",
     Arg.strs ["cluster-kube-controller-manager-operator", "installer"],
     Arg.strs ["cluster-kube-controller-manager-operator", "prune"],
     Arg.resources deploymentConfigMaps,
     Arg.resources deploymentSecrets,
     Arg.obj operatorClient,
     Arg.obj configMapGetter,
     Arg.obj secretGetter,
     Arg.obj coreV1,
     Arg.obj kubeClient,
     Arg.obj dynamicClient,
     Arg.obj podInformers,
     Arg.obj allInformers,
     Arg.obj (Ref.given ctx.EventRecorder)]

  let configV1 ← invoke Fn.ConfigV1 (some configClient) []
  let versionGetter ← invoke Fn.NewVersionGetter none []
  let clusterOperatorStatus ← invoke Fn.NewClusterOperatorStatusController none
    [Arg.str "kube-controller-manager",
     Arg.objectRefs
       [ { Group := "kubecontrollermanager.operator.openshift.io",
           Resource := "kubecontrollermanageroperatorconfigs", Name := "cluster" },
         { Group := "", Resource := "namespaces", Name := "openshift-config" },
         { Group := "", Resource := "namespaces", Name := "openshift-config-managed" },
         { Group := "", Resource := "namespaces", Name := k.TargetNamespace },
         { Group := "", Resource := "namespaces",
           Name := "openshift-kube-controller-manager-operator" } ],
     Arg.obj configV1,
     Arg.obj operatorClient,
     Arg.obj versionGetter,
     Arg.obj (Ref.given ctx.EventRecorder)]

  let stop ← ctxDone ctx
  effect Fn.Start (some operatorConfigInformers) [Arg.stop stop] []
  let stop ← ctxDone ctx
  effect Fn.Start (some kubeInformersForNamespaces) [Arg.stop stop] []

  let stop ← ctxDone ctx
  launch Fn.Run (some staticPodControllers) [Arg.stop stop]
  let stop ← ctxDone ctx
  launch Fn.Run (some targetConfigController) [Arg.int 1, Arg.stop stop]
  let stop ← ctxDone ctx
  launch Fn.Run (some configObserver) [Arg.int 1, Arg.stop stop]
  let stop ← ctxDone ctx
  launch Fn.Run (some clusterOperatorStatus) [Arg.int 1, Arg.stop stop]
  let stop ← ctxDone ctx
  launch Fn.Run (some resourceSyncController) [Arg.int 1, Arg.stop stop]

  let stop ← ctxDone ctx
  let received ← receive w stop
  return (if received then Outcome.returned (some "stopped") else Outcome.blocked)

/-- A run from the initial state: the outcome and the calls made, oldest first. -/
def run (k : Constants) (w : World) (ctx : ControllerContext) : Outcome × List Call :=
  match RunOperator k w ctx { next := 0, trace := [] } with
  | (outcome, s) => (outcome, s.trace.reverse)

/-! ## Vocabulary of the properties -/

/-- The five fallible constructors, in the order `RunOperator` tries them. -/
def fallibleConstructors : List Fn :=
  [Fn.kubernetes_NewForConfig, Fn.operatorconfigclient_NewForConfig, Fn.dynamic_NewForConfig,
   Fn.configv1client_NewForConfig, Fn.NewResourceSyncController]

/-- The `err` the world answers to each fallible constructor, in the same order. -/
def World.constructorErrors (w : World) : List GoError :=
  [w.kubeErr, w.operatorConfigErr, w.dynamicErr, w.configErr, w.resourceSyncErr]

/-- Every fallible constructor succeeds. -/
def World.allSucceed (w : World) : Prop :=
  ∀ e ∈ w.constructorErrors, e = none

/-- Success of all constructors can be read off the five `err` values. -/
instance (w : World) : Decidable w.allSucceed :=
  inferInstanceAs (Decidable (∀ e ∈ w.constructorErrors, e = none))

/-- The constructors of the five controllers, in source order. -/
def controllerConstructors : List Fn :=
  [Fn.NewResourceSyncController, Fn.NewConfigObserver, Fn.NewTargetConfigController,
   Fn.NewControllers, Fn.NewClusterOperatorStatusController]

/-- The calls that make up the life cycle of the controllers and informers: construction of a
controller, start of an informer factory, run of a controller. -/
def lifecycleCalls : List Fn :=
  controllerConstructors ++ [Fn.Start, Fn.Run]

/-- Whether the shutdown signal of the context ever fires: its `Done()` channel is closed. -/
def signalFires (w : World) (ctx : ControllerContext) : Bool :=
  completes w ctx.Context.Done

/-! ## Normal form of a run -/

/-- The calls of a run that no failing constructor cuts short, oldest first. -/
def allCalls (k : Constants) (w : World) (ctx : ControllerContext) : List Call :=
  [
    { fn := Fn.kubernetes_NewForConfig, recv := none,
        args := [Arg.obj (Ref.given ctx.KubeConfig)], ret := [Arg.obj (Ref.made 0),
          Arg.err w.kubeErr], go := false },
    { fn := Fn.operatorconfigclient_NewForConfig, recv := none,
        args := [Arg.obj (Ref.given ctx.KubeConfig)], ret := [Arg.obj (Ref.made 1),
          Arg.err w.operatorConfigErr], go := false },
    { fn := Fn.dynamic_NewForConfig, recv := none, args := [Arg.obj (Ref.given ctx.KubeConfig)],
        ret := [Arg.obj (Ref.made 2), Arg.err w.dynamicErr], go := false },
    { fn := Fn.configv1client_NewForConfig, recv := none,
        args := [Arg.obj (Ref.given ctx.KubeConfig)], ret := [Arg.obj (Ref.made 3),
          Arg.err w.configErr], go := false },
    { fn := Fn.NewSharedInformerFactory, recv := none, args := [Arg.obj (Ref.made 1),
          Arg.minutes 10], ret := [Arg.obj (Ref.made 4)], go := false },
    { fn := Fn.NewKubeInformersForNamespaces, recv := none, args := [Arg.obj (Ref.made 0),
          Arg.strs ["", k.GlobalUserSpecifiedConfigNamespace,
            k.GlobalMachineSpecifiedConfigNamespace, k.OperatorNamespace, k.TargetNamespace,
            "kube-system"]], ret := [Arg.obj (Ref.made 5)], go := false },
    { fn := Fn.KubecontrollermanagerV1alpha1, recv := some (Ref.made 1), args := [],
        ret := [Arg.obj (Ref.made 6)], go := false },
    { fn := Fn.OperatorClient, recv := none, args := [Arg.obj (Ref.made 4),
          Arg.obj (Ref.made 6)], ret := [Arg.obj (Ref.made 7)], go := false },
    { fn := Fn.MustAsset, recv := none,
        args := [Arg.str "v3.11.0/kube-controller-manager/operator-config.yaml"],
        ret := [Arg.obj (Ref.made 8)], go := false },
    { fn := Fn.EnsureOperatorConfigExists, recv := none, args := [Arg.obj (Ref.made 2),
          Arg.obj (Ref.made 8),
          Arg.gvr
            { Group := k.GroupName, Version := "v1alpha1",
              Resource := "kubecontrollermanageroperatorconfigs" }],
        ret := [], go := false },
    { fn := Fn.NewResourceSyncController, recv := none, args := [Arg.obj (Ref.made 7),
          Arg.obj (Ref.made 5), Arg.obj (Ref.made 0), Arg.obj (Ref.given ctx.EventRecorder)],
        ret := [Arg.obj (Ref.made 9), Arg.err w.resourceSyncErr], go := false },
    { fn := Fn.InformersFor, recv := some (Ref.made 5), args := [Arg.str "kube-system"],
        ret := [Arg.obj (Ref.made 10)], go := false },
    { fn := Fn.NewConfigObserver, recv := none, args := [Arg.obj (Ref.made 7),
          Arg.obj (Ref.made 4), Arg.obj (Ref.made 10), Arg.obj (Ref.made 9),
          Arg.obj (Ref.given ctx.EventRecorder)], ret := [Arg.obj (Ref.made 11)], go := false },
    { fn := Fn.Getenv, recv := none, args := [Arg.str "IMAGE"],
        ret := [Arg.str (Getenv w.environ "IMAGE")], go := false },
    { fn := Fn.KubeControllerManagerOperatorConfigs, recv := some (Ref.made 4), args := [],
        ret := [Arg.obj (Ref.made 12)], go := false },
    { fn := Fn.InformersFor, recv := some (Ref.made 5), args := [Arg.str k.TargetNamespace],
        ret := [Arg.obj (Ref.made 13)], go := false },
    { fn := Fn.KubecontrollermanagerV1alpha1, recv := some (Ref.made 1), args := [],
        ret := [Arg.obj (Ref.made 14)], go := false },
    { fn := Fn.NewTargetConfigController, recv := none,
        args := [Arg.str (Getenv w.environ "IMAGE"), Arg.obj (Ref.made 5), Arg.obj (Ref.made 12),
          Arg.obj (Ref.made 13), Arg.obj (Ref.made 14), Arg.obj (Ref.made 7),
          Arg.obj (Ref.made 0), Arg.obj (Ref.given ctx.EventRecorder)],
        ret := [Arg.obj (Ref.made 15)], go := false },
    { fn := Fn.CachedConfigMapGetter, recv := none, args := [Arg.obj (Ref.made 0),
          Arg.obj (Ref.made 5)], ret := [Arg.obj (Ref.made 16)], go := false },
    { fn := Fn.CachedSecretGetter, recv := none, args := [Arg.obj (Ref.made 0),
          Arg.obj (Ref.made 5)], ret := [Arg.obj (Ref.made 17)], go := false },
    { fn := Fn.CoreV1, recv := some (Ref.made 0), args := [], ret := [Arg.obj (Ref.made 18)],
        go := false },
    { fn := Fn.InformersFor, recv := some (Ref.made 5), args := [Arg.str k.TargetNamespace],
        ret := [Arg.obj (Ref.made 19)], go := false },
    { fn := Fn.InformersFor, recv := some (Ref.made 5), args := [Arg.str ""],
        ret := [Arg.obj (Ref.made 20)], go := false },
    { fn := Fn.NewControllers, recv := none, args := [Arg.str k.TargetNamespace,
          Arg.str "openshift-kube-controller-manager", Arg.str "kube-controller-manager-pod",
          Arg.strs ["cluster-kube-controller-manager-operator", "installer"],
          Arg.strs ["cluster-kube-controller-manager-operator", "prune"],
          Arg.resources deploymentConfigMaps, Arg.resources deploymentSecrets,
          Arg.obj (Ref.made 7), Arg.obj (Ref.made 16), Arg.obj (Ref.made 17),
          Arg.obj (Ref.made 18), Arg.obj (Ref.made 0), Arg.obj (Ref.made 2),
          Arg.obj (Ref.made 19), Arg.obj (Ref.made 20), Arg.obj (Ref.given ctx.EventRecorder)],
        ret := [Arg.obj (Ref.made 21)], go := false },
    { fn := Fn.ConfigV1, recv := some (Ref.made 3), args := [], ret := [Arg.obj (Ref.made 22)],
        go := false },
    { fn := Fn.NewVersionGetter, recv := none, args := [], ret := [Arg.obj (Ref.made 23)],
        go := false },
    { fn := Fn.NewClusterOperatorStatusController, recv := none,
        args := [Arg.str "kube-controller-manager",
          Arg.objectRefs
            [{ Group := "kubecontrollermanager.operator.openshift.io",
               Resource := "kubecontrollermanageroperatorconfigs", Name := "cluster" },
            { Group := "", Resource := "namespaces", Name := "openshift-config" },
            { Group := "", Resource := "namespaces", Name := "openshift-config-managed" },
            { Group := "", Resource := "namespaces", Name := k.TargetNamespace },
            { Group := "", Resource := "namespaces",
              Name := "openshift-kube-controller-manager-operator" }],
          Arg.obj (Ref.made 22), Arg.obj (Ref.made 7), Arg.obj (Ref.made 23),
          Arg.obj (Ref.given ctx.EventRecorder)], ret := [Arg.obj (Ref.made 24)], go := false },
    { fn := Fn.Done, recv := none, args := [], ret := [Arg.stop ctx.Context.Done], go := false },
    { fn := Fn.Start, recv := some (Ref.made 4), args := [Arg.stop ctx.Context.Done], ret := [],
        go := false },
    { fn := Fn.Done, recv := none, args := [], ret := [Arg.stop ctx.Context.Done], go := false },
    { fn := Fn.Start, recv := some (Ref.made 5), args := [Arg.stop ctx.Context.Done], ret := [],
        go := false },
    { fn := Fn.Done, recv := none, args := [], ret := [Arg.stop ctx.Context.Done], go := false },
    { fn := Fn.Run, recv := some (Ref.made 21), args := [Arg.stop ctx.Context.Done], ret := [],
        go := true },
    { fn := Fn.Done, recv := none, args := [], ret := [Arg.stop ctx.Context.Done], go := false },
    { fn := Fn.Run, recv := some (Ref.made 15), args := [Arg.int 1, Arg.stop ctx.Context.Done],
        ret := [], go := true },
    { fn := Fn.Done, recv := none, args := [], ret := [Arg.stop ctx.Context.Done], go := false },
    { fn := Fn.Run, recv := some (Ref.made 11), args := [Arg.int 1, Arg.stop ctx.Context.Done],
        ret := [], go := true },
    { fn := Fn.Done, recv := none, args := [], ret := [Arg.stop ctx.Context.Done], go := false },
    { fn := Fn.Run, recv := some (Ref.made 24), args := [Arg.int 1, Arg.stop ctx.Context.Done],
        ret := [], go := true },
    { fn := Fn.Done, recv := none, args := [], ret := [Arg.stop ctx.Context.Done], go := false },
    { fn := Fn.Run, recv := some (Ref.made 9), args := [Arg.int 1, Arg.stop ctx.Context.Done],
        ret := [], go := true },
    { fn := Fn.Done, recv := none, args := [], ret := [Arg.stop ctx.Context.Done], go := false },
    { fn := Fn.Receive, recv := none, args := [Arg.stop ctx.Context.Done], ret := [],
        go := false }
  ]

/-- How many calls a run makes: it stops right after the first constructor that fails. -/
def callCount (w : World) : Nat :=
  if w.kubeErr.isSome then 1
  else if w.operatorConfigErr.isSome then 2
  else if w.dynamicErr.isSome then 3
  else if w.configErr.isSome then 4
  else if w.resourceSyncErr.isSome then 11
  else 43

/-- The result of a run: the first constructor error, otherwise what the final receive allows. -/
def result (w : World) (ctx : ControllerContext) : Outcome :=
  match w.constructorErrors.find? Option.isSome with
  | some err => Outcome.returned err
  | none => if completes w ctx.Context.Done then Outcome.returned (some "stopped")
            else Outcome.blocked

/-! ## Revisions and pruning -/

/-- Modelled from the spec: the current input resources of the managed component over which the
revision controller computes its combined hash (section 4.3), as resource name and content. -/
abbrev Inputs := List (String × String)

/-- Modelled from the spec: the Revision of the data model (section 3), an immutable numbered
snapshot of the input resources, tagged with the combined hash of those inputs (section 4.3).
The static-pod controllers that create and delete revisions are built by
`staticpod.NewControllers`, whose code is not part of `pkg/operator/starter.go`. -/
structure Revision where
  number : Nat
  hash : Nat
  snapshot : Inputs
  deriving DecidableEq, Repr

/-- Modelled from the spec: the NodeRollout of the data model (section 3); the installer
controller that maintains it is built by `staticpod.NewControllers`. -/
structure NodeRollout where
  nodeName : String
  currentRevision : Nat
  targetRevision : Nat
  lastFailedRevision : Nat
  lastFailedReason : String
  lastFailedCount : Nat
  deriving DecidableEq, Repr

/-- Modelled from the spec: `RevisionController.Reconcile` (section 4.3), which is missing from
the source.  `store` holds the existing revisions, oldest first.  The combined hash of the
current inputs is compared to the hash recorded on the latest revision; if equal, nothing
happens; if different, or if no revision exists yet, one revision is created, numbered
`latestNumber + 1`, starting at the constant `initial` for the first revision. -/
def RevisionController.Reconcile (initial : Nat) (hash : Inputs → Nat) (store : List Revision)
    (inputs : Inputs) : List Revision :=
  match store.getLast? with
  | some latest =>
    if latest.hash = hash inputs then store
    else store ++ [{ number := latest.number + 1, hash := hash inputs, snapshot := inputs }]
  | none => store ++ [{ number := initial, hash := hash inputs, snapshot := inputs }]

/-- Modelled from the spec: a sequence of reconciles of the revision controller, one for each
observed state of the inputs, in order. -/
def RevisionController.reconcileAll (initial : Nat) (hash : Inputs → Nat)
    (store : List Revision) (observed : List Inputs) : List Revision :=
  observed.foldl (RevisionController.Reconcile initial hash) store

/-- Modelled from the spec: the protected set of `PrunerController` (section 4.5), the current
and target revision of every node rollout together with the latest revision. -/
def protectedSet (nodes : List NodeRollout) (latestRevision : Nat) : List Nat :=
  nodes.map NodeRollout.currentRevision ++ nodes.map NodeRollout.targetRevision
    ++ [latestRevision]

/-- Modelled from the spec: the deletion loop of `PrunerController` (sections 4.5 and 8), oldest
first, stopping once the retention bound is met: revisions are taken from the front of
`candidates` until no more than `retentionCount` of them are left.  The result is the revisions
deleted. -/
def deleteOldestFirst (retentionCount : Nat) : List Revision → List Revision
  | [] => []
  | r :: rest =>
    if (r :: rest).length ≤ retentionCount then []
    else r :: deleteOldestFirst retentionCount rest

/-- Modelled from the spec: `PrunerController.Reconcile` (section 4.5), which is missing from the
source.  The revisions whose number is outside the protected set are the candidates; they are
deleted oldest first until the retention bound is met.  The result is the store afterwards. -/
def PrunerController.Reconcile (retentionCount : Nat) (nodes : List NodeRollout)
    (latestRevision : Nat) (store : List Revision) : List Revision :=
  let candidates := (store.filter
    (fun r => decide (r.number ∉ protectedSet nodes latestRevision))).insertionSort
    (fun a b => a.number ≤ b.number)
  let deleted := deleteOldestFirst retentionCount candidates
  store.filter (fun r => decide (r.number ∉ deleted.map Revision.number))

/-! ## Example inputs -/

/-- The values the constants have in the operator's own packages. -/
def exampleConstants : Constants :=
  { GlobalUserSpecifiedConfigNamespace := "openshift-config"
    GlobalMachineSpecifiedConfigNamespace := "openshift-config-managed"
    OperatorNamespace := "openshift-kube-controller-manager-operator"
    TargetNamespace := "openshift-kube-controller-manager"
    GroupName := "kubecontrollermanager.operator.openshift.io" }

/-- A world in which every constructor succeeds, `IMAGE` is unset and channel 7 gets closed. -/
def exampleWorld : World :=
  { kubeErr := none, operatorConfigErr := none, dynamicErr := none, configErr := none,
    resourceSyncErr := none, environ := fun _ => none, closes := fun i => decide (i = 7) }

/-- A world in which `dynamic.NewForConfig` fails, and `NewResourceSyncController` would too. -/
def failingWorld : World :=
  { exampleWorld with dynamicErr := some "no route to host", resourceSyncErr := some "late" }

/-- A controller context whose `Done()` channel is channel 7. -/
def exampleContext : ControllerContext :=
  { KubeConfig := 100, EventRecorder := 101, Context := { done := some 7 } }

/-- A controller context whose context can never be cancelled, such as Go's
`context.Background()`: its `Done()` channel is nil. -/
def backgroundContext : ControllerContext :=
  { KubeConfig := 100, EventRecorder := 101, Context := { done := none } }

/-- The call of `NewConfigObserver` in the example run. -/
def exampleConstructorCall : Call :=
  { fn := Fn.NewConfigObserver, recv := none,
    args := [Arg.obj (Ref.made 7), Arg.obj (Ref.made 4), Arg.obj (Ref.made 10),
      Arg.obj (Ref.made 9), Arg.obj (Ref.given 101)],
    ret := [Arg.obj (Ref.made 11)], go := false }

/-- The call of `InformersFor("kube-system")` in the example run. -/
def exampleLookup : Call :=
  { fn := Fn.InformersFor, recv := some (Ref.made 5), args := [Arg.str "kube-system"],
    ret := [Arg.obj (Ref.made 10)], go := false }

/-- Five revisions; with `exampleNode` and latest revision 5, revisions 1 and 3 are
unprotected. -/
def exampleStore : List Revision :=
  [ { number := 1, hash := 11, snapshot := [] },
    { number := 2, hash := 12, snapshot := [] },
    { number := 3, hash := 13, snapshot := [] },
    { number := 4, hash := 14, snapshot := [] },
    { number := 5, hash := 15, snapshot := [] } ]

/-- A node that runs revision 2 and is being moved to revision 4. -/
def exampleNode : NodeRollout :=
  { nodeName := "master-0", currentRevision := 2, targetRevision := 4, lastFailedRevision := 0,
    lastFailedReason := "", lastFailedCount := 0 }

/-! ## Auxiliary lemmas -/

/-- A run makes the first `callCount` of `allCalls` and ends with `result`. -/
theorem run_eq (k : Constants) (w : World) (ctx : ControllerContext) :
    run k w ctx = (result w ctx, (allCalls k w ctx).take (callCount w)) := by
  obtain ⟨e1, e2, e3, e4, e5, env, closes⟩ := w
  cases e1 <;> cases e2 <;> cases e3 <;> cases e4 <;> cases e5 <;> rfl

/-- A run in which every constructor succeeds makes all of `allCalls`. -/
theorem run_ok (k : Constants) (environ : String → Option String) (closes : Nat → Bool)
    (ctx : ControllerContext) :
    run k ⟨none, none, none, none, none, environ, closes⟩ ctx =
      (if completes ⟨none, none, none, none, none, environ, closes⟩ ctx.Context.Done = true
        then Outcome.returned (some "stopped") else Outcome.blocked,
       allCalls k ⟨none, none, none, none, none, environ, closes⟩ ctx) := rfl

theorem deleteOldestFirst_subset (retentionCount : Nat) (candidates : List Revision) :
    ∀ r ∈ deleteOldestFirst retentionCount candidates, r ∈ candidates := by
  induction candidates with
  | nil => simp [deleteOldestFirst]
  | cons a rest ih =>
    intro r hr
    unfold deleteOldestFirst at hr
    split at hr
    · simp at hr
    · rcases List.mem_cons.mp hr with h | h
      · simp [h]
      · exact List.mem_cons_of_mem _ (ih r h)

theorem protectedSet_spec (nodes : List NodeRollout) (latestRevision : Nat) (x : Nat) :
    x ∈ protectedSet nodes latestRevision ↔
      (∃ n ∈ nodes, x = n.currentRevision ∨ x = n.targetRevision) ∨ x = latestRevision := by
  simp only [protectedSet, List.mem_append, List.mem_map, List.mem_singleton]
  constructor
  · rintro ((⟨n, hn, rfl⟩ | ⟨n, hn, rfl⟩) | h)
    · exact Or.inl ⟨n, hn, Or.inl rfl⟩
    · exact Or.inl ⟨n, hn, Or.inr rfl⟩
    · exact Or.inr h
  · rintro (⟨n, hn, rfl | rfl⟩ | h)
    · exact Or.inl (Or.inl ⟨n, hn, rfl⟩)
    · exact Or.inl (Or.inr ⟨n, hn, rfl⟩)
    · exact Or.inr h


theorem Reconcile_step (initial : Nat) (hash : Inputs → Nat) (store : List Revision)
    (inputs : Inputs) :
    (∃ latest, store.getLast? = some latest ∧ latest.hash = hash inputs ∧
      RevisionController.Reconcile initial hash store inputs = store) ∨
    (∃ rev, RevisionController.Reconcile initial hash store inputs = store ++ [rev] ∧
      rev.hash = hash inputs ∧ rev.snapshot = inputs ∧
      (∀ latest, store.getLast? = some latest →
        latest.hash ≠ hash inputs ∧ rev.number = latest.number + 1) ∧
      (store = [] → rev.number = initial)) := by
  unfold RevisionController.Reconcile
  cases h : store.getLast? with
  | none =>
    right
    exact ⟨_, rfl, rfl, rfl, by simp, fun _ => rfl⟩
  | some latest =>
    by_cases heq : latest.hash = hash inputs
    · left
      exact ⟨latest, rfl, heq, by simp [heq]⟩
    · right
      refine ⟨{ number := latest.number + 1, hash := hash inputs, snapshot := inputs },
        by simp only [heq, if_false], rfl, rfl, ?_, ?_⟩
      · intro l hl
        cases hl
        exact ⟨heq, rfl⟩
      · intro hnil
        simp [hnil] at h

theorem Reconcile_dense (initial : Nat) (hash : Inputs → Nat) (store : List Revision)
    (inputs : Inputs)
    (h : store.map Revision.number = List.range' initial store.length) :
    (RevisionController.Reconcile initial hash store inputs).map Revision.number =
      List.range' initial (RevisionController.Reconcile initial hash store inputs).length := by
  rcases Reconcile_step initial hash store inputs with ⟨_, _, _, heq⟩ | ⟨rev, heq, _, _, hnum, hinit⟩
  · rw [heq]; exact h
  · rw [heq]
    simp only [List.map_append, List.map_cons, List.map_nil, List.length_append,
      List.length_singleton, List.range'_1_concat, h]
    congr 2
    cases hl : store.getLast? with
    | none =>
      have : store = [] := List.getLast?_eq_none_iff.mp hl
      simp [hinit this, this]
    | some latest =>
      obtain ⟨ys, rfl⟩ := List.getLast?_eq_some_iff.mp hl
      rw [(hnum latest hl).2]
      simp only [List.map_append, List.map_cons, List.map_nil, List.length_append,
        List.length_singleton, List.range'_1_concat] at h
      have := List.append_inj_right' h (by simp)
      simp at this
      simp [this]
      omega

theorem reconcileAll_dense (initial : Nat) (hash : Inputs → Nat) (observed : List Inputs) :
    ∀ store : List Revision, store.map Revision.number = List.range' initial store.length →
      (RevisionController.reconcileAll initial hash store observed).map Revision.number =
        List.range' initial (RevisionController.reconcileAll initial hash store observed).length := by
  induction observed with
  | nil => intro store h; exact h
  | cons i rest ih =>
    intro store h
    exact ih _ (Reconcile_dense initial hash store i h)

theorem Reconcile_idempotent (initial : Nat) (hash : Inputs → Nat) (store : List Revision)
    (inputs : Inputs) :
    RevisionController.Reconcile initial hash
        (RevisionController.Reconcile initial hash store inputs) inputs =
      RevisionController.Reconcile initial hash store inputs := by
  rcases Reconcile_step initial hash store inputs with ⟨l, hl, hh, heq⟩ | ⟨rev, heq, hh, _, _, _⟩
  · rw [heq, heq]
  · rw [heq]
    unfold RevisionController.Reconcile
    simp [hh]

/-! ## Properties of `RunOperator` -/

/-- C1: when one of the five fallible constructors fails, `RunOperator` returns the error of the
first one that failed (the `i`-th, all earlier ones having returned a nil error); the
constructors tried are the first `i + 1` of `kubernetes.NewForConfig`,
`operatorconfigclient.NewForConfig`, `dynamic.NewForConfig`, `configv1client.NewForConfig`,
`NewResourceSyncController`, in that order; and the run contains no `Start` of an informer
factory and no `Run` of a controller. -/
theorem RunOperator_returns_first_constructor_error (k : Constants) (w : World)
    (ctx : ControllerContext) (i : Nat) (e : String)
    (hfail : w.constructorErrors[i]? = some (some e))
    (hfirst : ∀ j, j < i → w.constructorErrors[j]? = some none) :
    (run k w ctx).1 = Outcome.returned (some e) ∧
    ((run k w ctx).2.filter (fun c => decide (c.fn ∈ fallibleConstructors))).map
        (fun c => (c.fn, c.ret.getLast?)) =
      ((fallibleConstructors.zip w.constructorErrors).take (i + 1)).map
        (fun p => (p.1, some (Arg.err p.2))) ∧
    ∀ c ∈ (run k w ctx).2, c.fn ≠ Fn.Start ∧ c.fn ≠ Fn.Run := by
  obtain ⟨e1, e2, e3, e4, e5, env, closes⟩ := w
  have hi : i < 5 := by
    by_contra h
    have : ([e1, e2, e3, e4, e5] : List GoError)[i]? = none := by
      apply List.getElem?_eq_none; simp; omega
    simp [World.constructorErrors, this] at hfail
  have h0 := hfirst 0
  have h1 := hfirst 1
  have h2 := hfirst 2
  have h3 := hfirst 3
  interval_cases i <;>
    simp [World.constructorErrors] at hfail h0 h1 h2 h3 <;>
    subst_vars <;>
    simp [run_eq, result, callCount, allCalls, fallibleConstructors, World.constructorErrors]

/-- C1 at a concrete input: `dynamic.NewForConfig` is the first constructor to fail, its error
is returned after three calls, although a later constructor would fail as well. -/
theorem RunOperator_returns_first_constructor_error_witness :
    failingWorld.constructorErrors[2]? = some (some "no route to host") ∧
    (run exampleConstants failingWorld exampleContext).1 =
      Outcome.returned (some "no route to host") ∧
    (run exampleConstants failingWorld exampleContext).2.length = 3 :=
  ⟨by decide,
   (RunOperator_returns_first_constructor_error exampleConstants failingWorld exampleContext 2
      "no route to host" (by decide) (by decide)).1,
   by decide⟩

/-- C2: when all constructors succeed, the life-cycle calls of the run are, in this order: the
construction of the five controllers (resource sync, config observer, target config, static-pod
controllers, cluster-operator status), the `Start` of the two informer factories
(`operatorConfigInformers`, then `kubeInformersForNamespaces`), and one `Run`, launched with
`go`, for each of the five controllers.  So each `Run` is launched exactly once, none before the
informers are started, and no controller is constructed after they are started. -/
theorem RunOperator_constructs_then_starts_then_launches (k : Constants) (w : World)
    (ctx : ControllerContext) (h : w.allSucceed) :
    ∃ rs co tc sp cs oi ki : Ref,
      ((run k w ctx).2.filter (fun c => decide (c.fn ∈ lifecycleCalls))).map
          (fun c => (c.fn, c.recv, c.ret.head?, c.go)) =
        [ (Fn.NewResourceSyncController, none, some (Arg.obj rs), false),
          (Fn.NewConfigObserver, none, some (Arg.obj co), false),
          (Fn.NewTargetConfigController, none, some (Arg.obj tc), false),
          (Fn.NewControllers, none, some (Arg.obj sp), false),
          (Fn.NewClusterOperatorStatusController, none, some (Arg.obj cs), false),
          (Fn.Start, some oi, none, false),
          (Fn.Start, some ki, none, false),
          (Fn.Run, some sp, none, true),
          (Fn.Run, some tc, none, true),
          (Fn.Run, some co, none, true),
          (Fn.Run, some cs, none, true),
          (Fn.Run, some rs, none, true) ] ∧
      [rs, co, tc, sp, cs].Nodup ∧ oi ≠ ki ∧
      ((run k w ctx).2.filter (fun c => decide (c.fn = Fn.NewSharedInformerFactory))).map
          (fun c => c.ret) = [[Arg.obj oi]] ∧
      ((run k w ctx).2.filter (fun c => decide (c.fn = Fn.NewKubeInformersForNamespaces))).map
          (fun c => c.ret) = [[Arg.obj ki]] := by
  obtain ⟨e1, e2, e3, e4, e5, env, closes⟩ := w
  simp only [World.allSucceed, World.constructorErrors, List.forall_mem_cons] at h
  obtain ⟨rfl, rfl, rfl, rfl, rfl, -⟩ := h
  refine ⟨Ref.made 9, Ref.made 11, Ref.made 15, Ref.made 21, Ref.made 24, Ref.made 4,
    Ref.made 5, ?_⟩
  simp only [run_ok]
  simp [allCalls, lifecycleCalls, controllerConstructors]

/-- C2 at a concrete input: in the example run the life-cycle calls are five constructions, two
starts and five launches, in this order. -/
theorem RunOperator_constructs_then_starts_then_launches_witness :
    exampleWorld.allSucceed ∧
    ((run exampleConstants exampleWorld exampleContext).2.filter
        (fun c => decide (c.fn ∈ lifecycleCalls))).map (fun c => c.fn) =
      [Fn.NewResourceSyncController, Fn.NewConfigObserver, Fn.NewTargetConfigController,
       Fn.NewControllers, Fn.NewClusterOperatorStatusController, Fn.Start, Fn.Start,
       Fn.Run, Fn.Run, Fn.Run, Fn.Run, Fn.Run] :=
  ⟨by decide,
   match RunOperator_constructs_then_starts_then_launches exampleConstants exampleWorld
      exampleContext (by decide) with
   | ⟨_, _, _, _, _, _, _, h, _⟩ => by
      have h2 := congrArg (List.map Prod.fst) h
      simpa using h2⟩

/-- C3, as amended: every `Start` and every `Run` call of a run has `ctx.Context.Done()` as its
stop argument, and has no other channel among its arguments; the final receive of `RunOperator`
is on `ctx.Context.Done()` too; a run in which all constructors succeed makes two `Start` calls,
five `Run` calls and one receive; and a `Start` or `Run` call is given a nil channel exactly when
the `Done()` channel of the context is itself nil. -/
theorem RunOperator_passes_one_stop_signal (k : Constants) (w : World)
    (ctx : ControllerContext) :
    (∀ c ∈ (run k w ctx).2, c.fn = Fn.Start ∨ c.fn = Fn.Run →
      c.args.getLast? = some (Arg.stop ctx.Context.Done) ∧
      ∀ ch, Arg.stop ch ∈ c.args → ch = ctx.Context.Done) ∧
    (∀ c ∈ (run k w ctx).2, c.fn = Fn.Receive → c.args = [Arg.stop ctx.Context.Done]) ∧
    (w.allSucceed →
      ((run k w ctx).2.filter (fun c => decide (c.fn = Fn.Start))).length = 2 ∧
      ((run k w ctx).2.filter (fun c => decide (c.fn = Fn.Run))).length = 5 ∧
      ((run k w ctx).2.filter (fun c => decide (c.fn = Fn.Receive))).length = 1) ∧
    (∀ c ∈ (run k w ctx).2, c.fn = Fn.Start ∨ c.fn = Fn.Run →
      (Arg.stop none ∈ c.args ↔ ctx.Context.Done = none)) := by
  obtain ⟨e1, e2, e3, e4, e5, env, closes⟩ := w
  cases e1 <;> cases e2 <;> cases e3 <;> cases e4 <;> cases e5
  · simp only [run_ok, allCalls, List.forall_mem_cons]
    simp
    exact eq_comm
  all_goals simp [run_eq, callCount, allCalls, World.allSucceed, World.constructorErrors]

/-- C3 as first stated fails: when the `Done()` channel of the context is nil, as for a context
that can never be cancelled, each of the two `Start` calls and the five `Run` calls of a
successful run is given the nil channel. -/
theorem RunOperator_passes_nil_stop_counterexample :
    backgroundContext.Context.Done = none ∧
    ((run exampleConstants exampleWorld backgroundContext).2.filter
        (fun c => decide (c.fn = Fn.Start ∨ c.fn = Fn.Run))).map (fun c => (c.fn, c.args)) =
      [ (Fn.Start, [Arg.stop none]),
        (Fn.Start, [Arg.stop none]),
        (Fn.Run, [Arg.stop none]),
        (Fn.Run, [Arg.int 1, Arg.stop none]),
        (Fn.Run, [Arg.int 1, Arg.stop none]),
        (Fn.Run, [Arg.int 1, Arg.stop none]),
        (Fn.Run, [Arg.int 1, Arg.stop none]) ] := by
  decide

/-- C4: `deploymentConfigMaps` is not empty and the name of its first element is
"kube-controller-manager-pod"; every call of `staticpod.NewControllers` in a run has that same
name as its third argument (the static-pod configmap name) and `deploymentConfigMaps` as its
sixth; and a run in which all constructors succeed makes exactly one such call. -/
theorem deploymentConfigMaps_head_is_static_pod_manifest :
    deploymentConfigMaps ≠ [] ∧
    (deploymentConfigMaps.head?).map RevisionResource.Name = some "kube-controller-manager-pod" ∧
    ∀ (k : Constants) (w : World) (ctx : ControllerContext),
      (∀ c ∈ (run k w ctx).2, c.fn = Fn.NewControllers →
        c.args[2]? = some (Arg.str "kube-controller-manager-pod") ∧
        c.args[5]? = some (Arg.resources deploymentConfigMaps)) ∧
      (w.allSucceed →
        ((run k w ctx).2.filter (fun c => decide (c.fn = Fn.NewControllers))).length = 1) := by
  refine ⟨by simp [deploymentConfigMaps], by simp [deploymentConfigMaps], ?_⟩
  intro k w ctx
  obtain ⟨e1, e2, e3, e4, e5, env, closes⟩ := w
  cases e1 <;> cases e2 <;> cases e3 <;> cases e4 <;> cases e5
  · simp only [run_ok, allCalls, List.forall_mem_cons]
    simp
  all_goals simp [run_eq, callCount, allCalls, World.allSucceed, World.constructorErrors]

/-- C7: in every environment, every call of `NewTargetConfigController` has as its first argument
the value of the environment variable `IMAGE`, unmodified, and the empty string when `IMAGE` is
unset; a run in which all constructors succeed makes exactly one such call; and the outcome of a
run does not depend on the environment, so an unset `IMAGE` makes nothing fail. -/
theorem RunOperator_image_from_environment (k : Constants) (w : World)
    (ctx : ControllerContext) :
    (∀ c ∈ (run k w ctx).2, c.fn = Fn.NewTargetConfigController →
      (∀ v, w.environ "IMAGE" = some v → c.args.head? = some (Arg.str v)) ∧
      (w.environ "IMAGE" = none → c.args.head? = some (Arg.str ""))) ∧
    (w.allSucceed →
      ((run k w ctx).2.filter
        (fun c => decide (c.fn = Fn.NewTargetConfigController))).length = 1) ∧
    (∀ environ, (run k { w with environ := environ } ctx).1 = (run k w ctx).1) := by
  obtain ⟨e1, e2, e3, e4, e5, env, closes⟩ := w
  cases e1 <;> cases e2 <;> cases e3 <;> cases e4 <;> cases e5
  · simp only [run_ok, allCalls, List.forall_mem_cons]
    simp [completes]
    constructor <;> intros <;> simp_all [Getenv]
  all_goals
    simp [run_eq, result, callCount, allCalls, World.allSucceed, World.constructorErrors]

/-- C8: whenever a run calls one of the five controller constructors, the run has built exactly
one operator client, from the one operator-config informer factory of the run, and that
operator client is among the arguments of the call; and a run in which all constructors succeed
calls each of the five controller constructors once. -/
theorem RunOperator_shares_operatorClient (k : Constants) (w : World)
    (ctx : ControllerContext) (c : Call) (hc : c ∈ (run k w ctx).2)
    (hfn : c.fn ∈ controllerConstructors) :
    ∃ operatorClient operatorConfigInformers : Ref,
      ((run k w ctx).2.filter (fun b => decide (b.fn = Fn.OperatorClient))).map
          (fun b => (b.args.head?, b.ret)) =
        [(some (Arg.obj operatorConfigInformers), [Arg.obj operatorClient])] ∧
      ((run k w ctx).2.filter (fun b => decide (b.fn = Fn.NewSharedInformerFactory))).map
          (fun b => b.ret) = [[Arg.obj operatorConfigInformers]] ∧
      Arg.obj operatorClient ∈ c.args ∧
      (w.allSucceed →
        ((run k w ctx).2.filter (fun b => decide (b.fn ∈ controllerConstructors))).map
          (fun b => b.fn) = controllerConstructors) := by
  obtain ⟨e1, e2, e3, e4, e5, env, closes⟩ := w
  refine ⟨Ref.made 7, Ref.made 4, ?_⟩
  cases e1 <;> cases e2 <;> cases e3 <;> cases e4 <;> cases e5
  · simp only [run_ok] at hc ⊢
    refine ⟨by simp [allCalls], by simp [allCalls], ?_,
      by simp [allCalls, controllerConstructors]⟩
    simp only [allCalls, List.mem_cons, List.mem_singleton, List.not_mem_nil, or_false] at hc
    repeat' (obtain rfl | hc := hc)
    all_goals simp [controllerConstructors] at hfn ⊢
  all_goals
    simp [run_eq, callCount, allCalls, World.allSucceed, World.constructorErrors,
      controllerConstructors] at hc hfn ⊢
  all_goals
    rcases hc with rfl | rfl | rfl | rfl | rfl | rfl | rfl | rfl | rfl | rfl | rfl
  all_goals simp at hfn ⊢

/-- C8 at a concrete input: the `NewConfigObserver` call of the example run is passed the
operator client of the run. -/
theorem RunOperator_shares_operatorClient_witness :
    exampleConstructorCall ∈ (run exampleConstants exampleWorld exampleContext).2 ∧
    exampleConstructorCall.fn ∈ controllerConstructors ∧
    ∃ operatorClient : Ref, Arg.obj operatorClient ∈ exampleConstructorCall.args :=
  ⟨by decide, by decide,
   match RunOperator_shares_operatorClient exampleConstants exampleWorld exampleContext
      exampleConstructorCall (by decide) (by decide) with
   | ⟨oc, _, _, _, h, _⟩ => ⟨oc, h⟩⟩

/-- C9: `RunOperator` never returns a nil error.  When some constructor fails it returns a
non-nil error.  When all constructors succeed, it blocks for ever if the shutdown signal of the
context never fires, it returns the error "stopped" if the signal fires, and the last thing it
does is the receive on `ctx.Context.Done()`. -/
theorem RunOperator_never_returns_nil (k : Constants) (w : World) (ctx : ControllerContext) :
    (run k w ctx).1 ≠ Outcome.returned none ∧
    (¬ w.allSucceed → ∃ e, (run k w ctx).1 = Outcome.returned (some e)) ∧
    (w.allSucceed →
      (signalFires w ctx = false → (run k w ctx).1 = Outcome.blocked) ∧
      (signalFires w ctx = true → (run k w ctx).1 = Outcome.returned (some "stopped")) ∧
      (run k w ctx).2.getLast? =
        some { fn := Fn.Receive, recv := none, args := [Arg.stop ctx.Context.Done], ret := [],
               go := false }) := by
  obtain ⟨e1, e2, e3, e4, e5, env, closes⟩ := w
  cases e1 <;> cases e2 <;> cases e3 <;> cases e4 <;> cases e5
  · simp only [run_ok, signalFires]
    refine ⟨?_, ?_, fun _ => ⟨?_, ?_, by simp [allCalls]⟩⟩
    · split <;> simp
    · intro h; exact absurd (by simp [World.allSucceed, World.constructorErrors]) h
    · intro h; simp [h]
    · intro h; simp [h]
  all_goals
    simp [run_eq, result, callCount, World.allSucceed, World.constructorErrors]

/-- C10: every `InformersFor` call of a run is made on the object that the one call of
`NewKubeInformersForNamespaces` of the run returned, and asks for a namespace that is a member
of the namespace list given to that call; the namespaces asked for are "kube-system",
`operatorclient.TargetNamespace` and the all-namespaces value "". -/
theorem RunOperator_informersFor_tracked_namespaces (k : Constants) (w : World)
    (ctx : ControllerContext) (c : Call) (hc : c ∈ (run k w ctx).2)
    (hfn : c.fn = Fn.InformersFor) :
    ∃ (kubeInformersForNamespaces kubeClient : Ref) (namespaces : List String) (ns : String),
      ((run k w ctx).2.filter (fun b => decide (b.fn = Fn.NewKubeInformersForNamespaces))).map
          (fun b => (b.args, b.ret)) =
        [([Arg.obj kubeClient, Arg.strs namespaces], [Arg.obj kubeInformersForNamespaces])] ∧
      c.recv = some kubeInformersForNamespaces ∧
      c.args = [Arg.str ns] ∧
      ns ∈ namespaces ∧
      (ns = "kube-system" ∨ ns = k.TargetNamespace ∨ ns = "") := by
  obtain ⟨e1, e2, e3, e4, e5, env, closes⟩ := w
  cases e1 <;> cases e2 <;> cases e3 <;> cases e4 <;> cases e5
  · simp only [run_ok] at hc ⊢
    refine ⟨Ref.made 5, Ref.made 0,
      ["", k.GlobalUserSpecifiedConfigNamespace, k.GlobalMachineSpecifiedConfigNamespace,
       k.OperatorNamespace, k.TargetNamespace, "kube-system"], ?_⟩
    simp only [allCalls, List.mem_cons, List.mem_singleton, List.not_mem_nil, or_false] at hc
    repeat' (obtain rfl | hc := hc)
    all_goals simp at hfn
    all_goals simp [allCalls]
  all_goals
    simp [run_eq, callCount, allCalls] at hc
  all_goals
    (try rcases hc with rfl | rfl | rfl | rfl | rfl | rfl | rfl | rfl | rfl | rfl | rfl)
  all_goals simp at hfn

/-- C10 at a concrete input: the lookup of "kube-system" in the example run is for a namespace of
the list the informers were built with. -/
theorem RunOperator_informersFor_tracked_namespaces_witness :
    exampleLookup ∈ (run exampleConstants exampleWorld exampleContext).2 ∧
    exampleLookup.fn = Fn.InformersFor ∧
    ∃ (namespaces : List String) (ns : String),
      exampleLookup.args = [Arg.str ns] ∧ ns ∈ namespaces :=
  ⟨by decide, by decide,
   match RunOperator_informersFor_tracked_namespaces exampleConstants exampleWorld exampleContext
      exampleLookup (by decide) (by decide) with
   | ⟨_, _, namespaces, ns, _, _, h1, h2, _⟩ => ⟨namespaces, ns, h1, h2⟩⟩

/-! ## Properties of the revision and pruner controllers -/

/-- C5: a reconcile of the pruner controller keeps every revision of the store whose number is
the current or target revision of some node rollout, or the latest revision: such a number is in
the protected set, and the revision is still in the store afterwards, whatever the retention
bound and however old the revision is. -/
theorem PrunerController_keeps_protected (retentionCount : Nat) (nodes : List NodeRollout)
    (latestRevision : Nat) (store : List Revision) (r : Revision) (hr : r ∈ store)
    (hp : (∃ n ∈ nodes, r.number = n.currentRevision ∨ r.number = n.targetRevision) ∨
      r.number = latestRevision) :
    r.number ∈ protectedSet nodes latestRevision ∧
    r ∈ PrunerController.Reconcile retentionCount nodes latestRevision store := by
  have hmem : r.number ∈ protectedSet nodes latestRevision :=
    (protectedSet_spec nodes latestRevision r.number).mpr hp
  refine ⟨hmem, ?_⟩
  unfold PrunerController.Reconcile
  simp only [List.mem_filter, decide_eq_true_eq]
  refine ⟨hr, ?_⟩
  intro hdel
  obtain ⟨d, hd, hnum⟩ := List.mem_map.mp hdel
  have hcand := deleteOldestFirst_subset _ _ d hd
  rw [List.mem_insertionSort, List.mem_filter] at hcand
  have hout := hcand.2
  simp only [decide_eq_true_eq] at hout
  exact hout (hnum ▸ hmem)

/-- C5 at a concrete input: with retention bound 0 the pruner deletes the unprotected revisions
1 and 3 of the example store and keeps revision 2, the current revision of the example node. -/
theorem PrunerController_keeps_protected_witness :
    (PrunerController.Reconcile 0 [exampleNode] 5 exampleStore).map Revision.number =
      [2, 4, 5] ∧
    ({ number := 2, hash := 12, snapshot := [] } : Revision) ∈
      PrunerController.Reconcile 0 [exampleNode] 5 exampleStore :=
  ⟨by decide,
   (PrunerController_keeps_protected 0 [exampleNode] 5 exampleStore
      { number := 2, hash := 12, snapshot := [] } (by decide)
      (Or.inl ⟨exampleNode, by decide, Or.inl rfl⟩)).2⟩

/-- C6: each reconcile of the revision controller either creates nothing, when the combined hash
of the inputs equals the hash recorded on the latest revision, or appends exactly one revision,
numbered `latestNumber + 1` (the initial constant when no revision exists yet).  Hence a
history whose numbers are `initial, initial + 1, ...` still has such numbers after any sequence
of reconciles, and after any sequence of reconciles from the empty history the numbers of the revisions created are
`initial, initial + 1, ...` in creation order: strictly increasing, without duplicates and
without gaps.  Reconciling the same inputs again creates nothing. -/
theorem RevisionController_numbers_dense (initial : Nat) (hash : Inputs → Nat)
    (observed : List Inputs) :
    (∀ (store : List Revision) (inputs : Inputs),
      (∃ latest, store.getLast? = some latest ∧ latest.hash = hash inputs ∧
        RevisionController.Reconcile initial hash store inputs = store) ∨
      (∃ rev, RevisionController.Reconcile initial hash store inputs = store ++ [rev] ∧
        rev.hash = hash inputs ∧ rev.snapshot = inputs ∧
        (∀ latest, store.getLast? = some latest →
          latest.hash ≠ hash inputs ∧ rev.number = latest.number + 1) ∧
        (store = [] → rev.number = initial))) ∧
    (∀ store : List Revision,
      store.map Revision.number = List.range' initial store.length →
      (RevisionController.reconcileAll initial hash store observed).map Revision.number =
        List.range' initial
          (RevisionController.reconcileAll initial hash store observed).length) ∧
    ((RevisionController.reconcileAll initial hash [] observed).map Revision.number =
        List.range' initial (RevisionController.reconcileAll initial hash [] observed).length ∧
      ((RevisionController.reconcileAll initial hash [] observed).map
        Revision.number).Pairwise (fun a b => a < b) ∧
      ((RevisionController.reconcileAll initial hash [] observed).map Revision.number).Nodup) ∧
    (∀ (store : List Revision) (inputs : Inputs),
      RevisionController.Reconcile initial hash
          (RevisionController.Reconcile initial hash store inputs) inputs =
        RevisionController.Reconcile initial hash store inputs) := by
  have hdense := reconcileAll_dense initial hash observed [] rfl
  refine ⟨Reconcile_step initial hash, reconcileAll_dense initial hash observed,
    ⟨hdense, ?_, ?_⟩, Reconcile_idempotent initial hash⟩
  · rw [hdense]
    exact List.pairwise_lt_range' _ _
  · rw [hdense]
    exact List.nodup_range' _ _

end Operator
